import Mathlib

/-!
Shallow embedding of the go-home device backend core: the device-type
registry, the validation engine, the update-merge logic and the
alarm-trigger service path, with the in-memory semantics of the SQL
repository operations the claims depend on.

Go strings are modelled as lists of Unicode characters; Go's `len` on a
string counts UTF-8 bytes, so it is embedded as the sum of the UTF-8
byte sizes of the characters (`golen`), distinct from the character
count (`List.length`).
-/

namespace GoHome

/-- A Go string: the sequence of Unicode code points it decodes to. -/
abbrev GoString := List Char

/-- Conversion of a Lean string literal to the Go-string model. -/
def gostr (s : String) : GoString := s.toList

/-- Go `len` on a string: the number of UTF-8 bytes. -/
def golen (s : GoString) : Nat := (s.map Char.utf8Size).sum

/-- A Go `error` value, identified by its message as produced by
`errors.New` / `fmt.Errorf`. -/
abbrev GoError := String

/-! ## internal/models/device_type.go -/

/-- `type DeviceType string`. -/
abbrev DeviceType := GoString

def DeviceTypeCamera : DeviceType := gostr "CAMERA"
def DeviceTypeThermostat : DeviceType := gostr "THERMOSTAT"
def DeviceTypeSmokeDetector : DeviceType := gostr "SMOKE_DETECTOR"
def DeviceTypeMotionSensor : DeviceType := gostr "MOTION_SENSOR"
def DeviceTypeLock : DeviceType := gostr "LOCK"
def DeviceTypeUnknown : DeviceType := gostr "UNKNOWN"

/-- `DeviceType.IsValid`: the switch over the six enum constants. -/
def DeviceType.IsValid (dt : DeviceType) : Bool :=
  dt == DeviceTypeCamera || dt == DeviceTypeThermostat ||
  dt == DeviceTypeSmokeDetector || dt == DeviceTypeMotionSensor ||
  dt == DeviceTypeLock || dt == DeviceTypeUnknown

/-- `IsValidDeviceType`: delegates to the method. -/
def IsValidDeviceType (dt : DeviceType) : Bool := dt.IsValid

/-- `DeviceTypeInfo` metadata record (registry entries). -/
structure DeviceTypeInfo where
  ID : String
  DisplayName : String
  Description : String
deriving Repr, DecidableEq

/-- `GetAllDeviceTypes`: the fixed registry sequence. -/
def GetAllDeviceTypes : List DeviceTypeInfo :=
  [ { ID := "CAMERA", DisplayName := "Camera",
      Description := "Smart security camera" },
    { ID := "THERMOSTAT", DisplayName := "Thermostat",
      Description := "Smart thermostat for controlling temperature" },
    { ID := "SMOKE_DETECTOR", DisplayName := "Smoke Detector",
      Description := "Detects smoke and fire hazards" },
    { ID := "MOTION_SENSOR", DisplayName := "Motion Sensor",
      Description := "Detects movement in monitored areas" },
    { ID := "LOCK", DisplayName := "Lock",
      Description := "Smart lock with remote access capabilities" },
    { ID := "UNKNOWN", DisplayName := "Unknown",
      Description := "Unknown device type" } ]

/-! ## internal/models: Device, DeviceCreate, DeviceUpdate, AlarmRequest
Field sets taken from their uses across the repository, service,
validation and handler code. Store-managed timestamps are modelled as
naturals. -/

structure Device where
  ID : Int
  Name : GoString
  Description : GoString
  DeviceType : DeviceType
  OwnedBy : GoString
  IsOnline : Bool
  LastAlarmReason : GoString
  LastAlarmTime : Nat
  CreatedAt : Nat
  UpdatedAt : Nat
deriving Repr, DecidableEq

structure DeviceCreate where
  Name : GoString
  Description : GoString
  DeviceType : DeviceType
  OwnedBy : GoString
deriving Repr, DecidableEq

/-- Sparse patch: every field a pointer in Go, hence `Option` here. -/
structure DeviceUpdate where
  Name : Option GoString := none
  Description : Option GoString := none
  IsOnline : Option Bool := none
  OwnedBy : Option GoString := none
  DeviceType : Option DeviceType := none
  LastAlarmReason : Option GoString := none
deriving Repr, DecidableEq

structure AlarmRequest where
  Reason : GoString
  Level : GoString
deriving Repr, DecidableEq

/-! ## internal/validation (part_002) -/

def MaxDeviceNameLength : Nat := 100
def MinDeviceNameLength : Nat := 1
def MaxOwnerLength : Nat := 50
def MinOwnerLength : Nat := 1
def MaxDescriptionLength : Nat := 500
def MaxLastAlarmReasonLength : Nat := 200
def MinAlarmReasonLength : Nat := 1

/-- One byte of the pattern class `[a-zA-Z0-9]`; on UTF-8 input a
multi-byte character can never match a single class byte, so matching
the whole string is character-wise membership in the ASCII class. -/
def isAlnumByteClass (c : Char) : Bool :=
  ('a' ≤ c && c ≤ 'z') || ('A' ≤ c && c ≤ 'Z') || ('0' ≤ c && c ≤ '9')

/-- `alphanumericPattern.MatchString` for `^[a-zA-Z0-9]+$`. -/
def alphanumericMatchString (s : GoString) : Bool :=
  !s.isEmpty && s.all isAlnumByteClass

/-- `IsValidDeviceName`: length window in bytes, then the regex. -/
def IsValidDeviceName (name : GoString) : Bool :=
  if golen name < MinDeviceNameLength || golen name > MaxDeviceNameLength then
    false
  else
    alphanumericMatchString name

/-- `IsValidOwner`: byte-length window. -/
def IsValidOwner (owner : GoString) : Bool :=
  decide (MinOwnerLength ≤ golen owner) && decide (golen owner ≤ MaxOwnerLength)

/-- `ValidationErrors`: Go `map[string]string`, as the association list
of inserted (field, message) pairs in program order; every validator
inserts each key at most once, so the list is a faithful map model. -/
abbrev ValidationErrors := List (String × String)

/-- Field keys of an error report. -/
def errorKeys (e : ValidationErrors) : List String := e.map Prod.fst

/-- Error message for an out-of-window name. -/
def nameErrMsg : String :=
  "must be between " ++ toString MinDeviceNameLength ++ "-" ++
  toString MaxDeviceNameLength ++
  " characters and contain only alphanumeric characters (A-Z, a-z, 0-9)"

/-- Error message for an invalid device type: comma-joined registry ids. -/
def deviceTypeErrMsg : String :=
  "must be one of: " ++ String.intercalate ", " (GetAllDeviceTypes.map DeviceTypeInfo.ID)

/-- Error message for an out-of-window owner. -/
def ownerErrMsg : String :=
  "must be between " ++ toString MinOwnerLength ++ "-" ++
  toString MaxOwnerLength ++ " characters"

/-- Error message for an over-long description. -/
def descriptionErrMsg : String :=
  "must not exceed " ++ toString MaxDescriptionLength ++ " characters"

/-- Error message for an over-long last-alarm reason. -/
def lastAlarmReasonErrMsg : String :=
  "must not exceed " ++ toString MaxLastAlarmReasonLength ++ " characters"

/-- `ValidateDeviceCreate`: accumulates all failing fields, then
returns `(len(errors) == 0, errors)`. -/
def ValidateDeviceCreate (device : DeviceCreate) : Bool × ValidationErrors :=
  let errors : ValidationErrors := []
  let errors := if !IsValidDeviceName device.Name then
      errors ++ [("name", nameErrMsg)] else errors
  let errors := if !IsValidDeviceType device.DeviceType then
      errors ++ [("device_type", deviceTypeErrMsg)] else errors
  let errors := if !IsValidOwner device.OwnedBy then
      errors ++ [("owned_by", ownerErrMsg)] else errors
  let errors := if golen device.Description > MaxDescriptionLength then
      errors ++ [("description", descriptionErrMsg)] else errors
  (errors.length == 0, errors)

/-- `ValidateAlarmRequest`: reason (if/else-if), then level. -/
def ValidateAlarmRequest (alarm : AlarmRequest) : Bool × ValidationErrors :=
  let errors : ValidationErrors := []
  let errors := if golen alarm.Reason < MinAlarmReasonLength then
      errors ++ [("reason", "reason cannot be empty")]
    else if golen alarm.Reason > MaxLastAlarmReasonLength then
      errors ++ [("reason", "reason must not exceed " ++
        toString MaxLastAlarmReasonLength ++ " characters")]
    else errors
  let errors := if alarm.Level != gostr "INFO" && alarm.Level != gostr "WARNING" &&
      alarm.Level != gostr "CRITICAL" then
      errors ++ [("level", "level must be one of: INFO, WARNING, CRITICAL")]
    else errors
  (errors.length == 0, errors)

/-- `ValidateDeviceUpdate`: each present field checked with the same
predicate as creation; nil fields skipped. -/
def ValidateDeviceUpdate (device : DeviceUpdate) : Bool × ValidationErrors :=
  let errors : ValidationErrors := []
  let errors := match device.Name with
    | some n => if !IsValidDeviceName n then
        errors ++ [("name", nameErrMsg)] else errors
    | none => errors
  let errors := match device.OwnedBy with
    | some o => if !IsValidOwner o then
        errors ++ [("owned_by", ownerErrMsg)] else errors
    | none => errors
  let errors := match device.Description with
    | some d => if golen d > MaxDescriptionLength then
        errors ++ [("description", descriptionErrMsg)] else errors
    | none => errors
  let errors := match device.LastAlarmReason with
    | some r => if golen r > MaxLastAlarmReasonLength then
        errors ++ [("last_alarm_reason", lastAlarmReasonErrMsg)] else errors
    | none => errors
  let errors := match device.DeviceType with
    | some t => if !IsValidDeviceType t then
        errors ++ [("device_type", deviceTypeErrMsg)] else errors
    | none => errors
  (errors.length == 0, errors)

/-! ## internal/repository/device_repository.go, in-memory semantics
The devices table is a list of rows; `db.Exec`/`QueryRow` on this
in-memory store never fail at the driver level, so the only errors the
repository surfaces here are the ones its own code constructs. -/

/-- `sql.ErrNoRows`, by its message. -/
def errNoRows : GoError := "sql: no rows in result set"

/-- The `devices` table. -/
structure Store where
  devices : List Device
deriving Repr, DecidableEq

/-- `GetByID`: `SELECT ... WHERE id = ?`; absence yields `nil, nil`. -/
def Store.getByID (s : Store) (id : Int) : Option Device :=
  s.devices.find? (fun d => d.ID == id)

/-- The field merge inside `DeviceRepositoryImpl.Update`: start from the
current row, overwrite each field whose pointer is non-nil. -/
def applyUpdateFields (currentDevice : Device) (device : DeviceUpdate) : Device :=
  let name := match device.Name with
    | some v => v
    | none => currentDevice.Name
  let description := match device.Description with
    | some v => v
    | none => currentDevice.Description
  let isOnline := match device.IsOnline with
    | some v => v
    | none => currentDevice.IsOnline
  let ownedBy := match device.OwnedBy with
    | some v => v
    | none => currentDevice.OwnedBy
  let deviceType := match device.DeviceType with
    | some v => v
    | none => currentDevice.DeviceType
  let lastAlarmReason := match device.LastAlarmReason with
    | some v => v
    | none => currentDevice.LastAlarmReason
  { currentDevice with
    Name := name, Description := description, IsOnline := isOnline,
    OwnedBy := ownedBy, DeviceType := deviceType,
    LastAlarmReason := lastAlarmReason }

/-- The `UPDATE devices SET ... updated_at = CURRENT_TIMESTAMP WHERE
id = ?` statement: rewrites every row whose id matches. -/
def Store.updateRow (s : Store) (id : Int) (merged : Device) (now : Nat) : Store :=
  { devices := s.devices.map (fun d =>
      if d.ID == id then
        { merged with
          ID := d.ID, LastAlarmTime := d.LastAlarmTime,
          CreatedAt := d.CreatedAt, UpdatedAt := now }
      else d) }

/-- `DeviceRepositoryImpl.Update`: fetch the baseline, fail with
`sql.ErrNoRows` when absent, else merge and run the UPDATE. -/
def DeviceRepositoryImpl.Update (s : Store) (id : Int) (device : DeviceUpdate)
    (now : Nat) : Except GoError Store :=
  match s.getByID id with
  | none => .error errNoRows
  | some currentDevice =>
      .ok (s.updateRow id (applyUpdateFields currentDevice device) now)

/-- `DeviceRepositoryImpl.Delete`: `DELETE FROM devices WHERE id = ?`,
returning only the driver error; no existence or rows-affected check. -/
def DeviceRepositoryImpl.Delete (s : Store) (id : Int) : Except GoError Store :=
  .ok { devices := s.devices.filter (fun d => !(d.ID == id)) }

/-- `DeviceRepositoryImpl.TriggerAlarm`: `UPDATE devices SET
last_alarm_reason = ?, last_alarm_time = CURRENT_TIMESTAMP, updated_at
= CURRENT_TIMESTAMP WHERE id = ?`. -/
def DeviceRepositoryImpl.TriggerAlarm (s : Store) (id : Int) (reason : GoString)
    (now : Nat) : Except GoError Store :=
  .ok { devices := s.devices.map (fun d =>
      if d.ID == id then
        { d with
          LastAlarmReason := reason, LastAlarmTime := now,
          UpdatedAt := now }
      else d) }

/-! ## internal/service (part_003): DeviceService.TriggerAlarm
The service talks to the repository through an interface; the embedding
abstracts that boundary the same way: the two repository calls the
method can make are supplied as behaviours over an abstract repository
state, and the result records both the returned error and the list of
alarm-mutation invocations (as the mock-based tests observe them). -/

/-- The repository interface slice `TriggerAlarm` uses, over an
abstract state type. -/
structure RepoBehavior (σ : Type) where
  GetByID : σ → Int → Except GoError (Option Device)
  TriggerAlarm : σ → Int → GoString → Except GoError σ

/-- `fmt.Errorf("device not found with ID: %d", id)`. -/
def deviceNotFoundError (id : Int) : GoError :=
  "device not found with ID: " ++ toString id

/-- `fmt.Sprintf("[%s] %s", alarm.Level, alarm.Reason)`. -/
def formatReason (alarm : AlarmRequest) : GoString :=
  gostr "[" ++ alarm.Level ++ gostr "] " ++ alarm.Reason

/-- `DeviceService.TriggerAlarm`: look the device up; propagate a
lookup error unchanged; fail not-found on absence; otherwise invoke the
repository alarm mutation with the formatted reason. The second
component lists the `repo.TriggerAlarm` invocations made. -/
def DeviceService.TriggerAlarm {σ : Type} (repo : RepoBehavior σ) (s : σ)
    (id : Int) (alarm : AlarmRequest) :
    Except GoError σ × List (Int × GoString) :=
  match repo.GetByID s id with
  | .error err => (.error err, [])
  | .ok none => (.error (deviceNotFoundError id), [])
  | .ok (some _) =>
      let formattedReason := formatReason alarm
      (repo.TriggerAlarm s id formattedReason, [(id, formattedReason)])

/-- The SQL-backed repository as a behaviour over `Store` (its in-memory
semantics, with the statement timestamp supplied). -/
def sqliteRepo (now : Nat) : RepoBehavior Store :=
  { GetByID := fun s id => .ok (s.getByID id),
    TriggerAlarm := fun s id reason => DeviceRepositoryImpl.TriggerAlarm s id reason now }

/-! ## Concrete fixtures used by witnesses -/

/-- A well-formed stored device used as a concrete fixture. -/
def fixtureDevice : Device :=
  { ID := 1, Name := gostr "TestDevice", Description := gostr "desc",
    DeviceType := DeviceTypeCamera, OwnedBy := gostr "owner1",
    IsOnline := false, LastAlarmReason := gostr "",
    LastAlarmTime := 0, CreatedAt := 0, UpdatedAt := 0 }

/-- The alarm request from the spec's worked example. -/
def fixtureAlarm : AlarmRequest :=
  { Reason := gostr "Smoke detected", Level := gostr "CRITICAL" }

/-! ## Helper lemmas -/

/-- `find?` over a map that rewrites only the rows matching the searched
id and keeps their id unchanged commutes with the search. -/
theorem find_map_update (l : List Device) (id : Int) (f : Device → Device)
    (hf : ∀ d, (f d).ID = d.ID) :
    (l.map (fun d => if d.ID == id then f d else d)).find? (fun d => d.ID == id) =
      (l.find? (fun d => d.ID == id)).map f := by
  induction l with
  | nil => rfl
  | cons d l ih =>
      by_cases h : (d.ID == id) = true
      · have hfd : (fun x : Device => x.ID == id) (f d) = true := by
          simpa [hf] using h
        have hdd : (fun x : Device => x.ID == id) d = true := h
        rw [List.map_cons, if_pos h,
          List.find?_cons_of_pos (p := fun x : Device => x.ID == id) _ hfd,
          List.find?_cons_of_pos (p := fun x : Device => x.ID == id) _ hdd]
        rfl
      · have hfd : ¬ (fun x : Device => x.ID == id) d = true := h
        rw [List.map_cons, if_neg h,
          List.find?_cons_of_neg (p := fun x : Device => x.ID == id) _ hfd,
          List.find?_cons_of_neg (p := fun x : Device => x.ID == id) _ hfd, ih]

/-- On a string of single-byte characters, Go `len` equals the
character count. -/
theorem golen_of_single_byte (s : GoString) (h : ∀ c ∈ s, c.utf8Size = 1) :
    golen s = s.length := by
  induction s with
  | nil => rfl
  | cons c t ih =>
      have hc : c.utf8Size = 1 := h c (by simp)
      have ht : ∀ x ∈ t, x.utf8Size = 1 := fun x hx => h x (by simp [hx])
      simp only [golen, List.map_cons, List.sum_cons, List.length_cons] at ih ⊢
      rw [hc, ih ht]
      omega

/-- An error list is flagged empty by `len(errors) == 0` exactly when it
has no entries. -/
theorem length_beq_zero_iff (l : ValidationErrors) :
    (l.length == 0) = true ↔ l = [] := by
  simp [List.length_eq_zero]

set_option maxHeartbeats 1000000 in
/-- Closed form of the update-validation key list: the concatenation of
one independent chunk per optional field. -/
theorem validateDeviceUpdate_keys (p : DeviceUpdate) :
    errorKeys (ValidateDeviceUpdate p).2 =
      (match p.Name with
        | some n => if IsValidDeviceName n then [] else ["name"]
        | none => []) ++
      (match p.OwnedBy with
        | some o => if IsValidOwner o then [] else ["owned_by"]
        | none => []) ++
      (match p.Description with
        | some d => if golen d > MaxDescriptionLength then ["description"] else []
        | none => []) ++
      (match p.LastAlarmReason with
        | some r => if golen r > MaxLastAlarmReasonLength then ["last_alarm_reason"] else []
        | none => []) ++
      (match p.DeviceType with
        | some t => if IsValidDeviceType t then [] else ["device_type"]
        | none => []) := by
  obtain ⟨n, de, o, ow, t, r⟩ := p
  cases n <;> cases de <;> cases ow <;> cases t <;> cases r <;>
    simp only [ValidateDeviceUpdate, errorKeys] <;>
    (try split_ifs) <;> simp_all

/-! ## Claim theorems -/

/-- Claim C9: the device-type validity check returns true iff the input
is exactly one of CAMERA, THERMOSTAT, SMOKE_DETECTOR, MOTION_SENSOR,
LOCK, UNKNOWN; comparison is case-sensitive and exact, so "camera",
"Camera" and "" are all invalid. -/
theorem C9_device_type_closed_enum :
    (∀ dt : DeviceType, DeviceType.IsValid dt = true ↔
      (dt = DeviceTypeCamera ∨ dt = DeviceTypeThermostat ∨
       dt = DeviceTypeSmokeDetector ∨ dt = DeviceTypeMotionSensor ∨
       dt = DeviceTypeLock ∨ dt = DeviceTypeUnknown)) ∧
    DeviceType.IsValid (gostr "camera") = false ∧
    DeviceType.IsValid (gostr "Camera") = false ∧
    DeviceType.IsValid (gostr "") = false := by
  refine ⟨fun dt => ?_, by decide, by decide, by decide⟩
  simp [DeviceType.IsValid, Bool.or_eq_true, beq_iff_eq, or_assoc]

/-- Claim C1 counterexample: the owner length check counts UTF-8 bytes,
not characters; a 50-character owner made of two-byte characters is
rejected even though its character count is within the stated bound. -/
theorem C1_counterexample_owner_bytes :
    (List.replicate 50 'é').length = 50 ∧
    IsValidOwner (List.replicate 50 'é') = false := by
  exact ⟨by decide, by decide⟩

set_option maxRecDepth 8000 in
/-- Claim C1 amended: every length check measures UTF-8 byte count, not
character count; `IsValidOwner` accepts exactly byte lengths 1–50; byte
count coincides with character count on single-byte (ASCII) strings, so
every 50-character single-byte owner is accepted, while a description of
300 two-byte characters (600 bytes) is flagged despite having fewer than
500 characters. -/
theorem C1_amended_byte_length :
    (∀ owner : GoString, IsValidOwner owner = true ↔
      MinOwnerLength ≤ golen owner ∧ golen owner ≤ MaxOwnerLength) ∧
    (∀ s : GoString, (∀ c ∈ s, c.utf8Size = 1) → golen s = s.length) ∧
    (∀ owner : GoString, owner.length = 50 → (∀ c ∈ owner, c.utf8Size = 1) →
      IsValidOwner owner = true) ∧
    errorKeys (ValidateDeviceCreate {
      Name := gostr "Device1",
      Description := List.replicate 300 'é', DeviceType := DeviceTypeCamera,
      OwnedBy := gostr "owner1" }).2 = ["description"] := by
  have hwin : ∀ owner : GoString, IsValidOwner owner = true ↔
      MinOwnerLength ≤ golen owner ∧ golen owner ≤ MaxOwnerLength := by
    intro owner
    simp [IsValidOwner, Bool.and_eq_true, decide_eq_true_iff]
  refine ⟨hwin, fun s h => golen_of_single_byte s h, ?_, by decide⟩
  intro owner hlen hascii
  refine (hwin owner).mpr ?_
  rw [golen_of_single_byte owner hascii, hlen]
  exact ⟨by norm_num [MinOwnerLength], by norm_num [MaxOwnerLength]⟩

/-- Claim C1 amended witness: a 50-character single-byte owner passes. -/
theorem C1_amended_byte_length_witness :
    IsValidOwner (List.replicate 50 'a') = true :=
  C1_amended_byte_length.2.2.1 (List.replicate 50 'a') (by decide) (by decide)

/-- Claim C2 counterexample: on the empty store the id 1 has no record,
yet Delete returns success rather than any not-found failure. -/
theorem C2_counterexample_delete_succeeds :
    Store.getByID { devices := [] } 1 = none ∧
    DeviceRepositoryImpl.Delete { devices := [] } 1 =
      .ok { devices := ([] : List Device) } :=
  ⟨rfl, rfl⟩

/-- Claim C2 amended: Update fails with sql.ErrNoRows when GetByID
yields no baseline, and TriggerAlarm fails with the not-found error when
the lookup yields no device; Delete, however, issues the DELETE
unconditionally and returns success even when the id has no record. -/
theorem C2_amended_notfound_paths :
    (∀ (s : Store) (id : Int) (patch : DeviceUpdate) (now : Nat),
      s.getByID id = none →
      DeviceRepositoryImpl.Update s id patch now = .error errNoRows) ∧
    (∀ (σ : Type) (repo : RepoBehavior σ) (st : σ) (id : Int) (alarm : AlarmRequest),
      repo.GetByID st id = .ok none →
      (DeviceService.TriggerAlarm repo st id alarm).1 =
        .error (deviceNotFoundError id)) ∧
    (∀ (s : Store) (id : Int), ∃ s' : Store,
      DeviceRepositoryImpl.Delete s id = .ok s') := by
  refine ⟨?_, ?_, ?_⟩
  · intro s id patch now h
    simp [DeviceRepositoryImpl.Update, h]
  · intro σ repo st id alarm h
    simp [DeviceService.TriggerAlarm, h]
  · intro s id
    exact ⟨_, rfl⟩

/-- Claim C2 amended witness: the three paths at the empty store. -/
theorem C2_amended_notfound_paths_witness :
    DeviceRepositoryImpl.Update { devices := [] } 1 {} 0 = .error errNoRows ∧
    (DeviceService.TriggerAlarm (sqliteRepo 0) { devices := [] } 1 fixtureAlarm).1 =
      .error (deviceNotFoundError 1) ∧
    ∃ s' : Store, DeviceRepositoryImpl.Delete { devices := [] } 1 = .ok s' :=
  ⟨C2_amended_notfound_paths.1 { devices := [] } 1 {} 0 rfl,
   C2_amended_notfound_paths.2.1 Store (sqliteRepo 0) { devices := [] } 1 fixtureAlarm rfl,
   C2_amended_notfound_paths.2.2 { devices := [] } 1⟩

/-- Claim C3: the update merge is a field-by-field override over the six
mutable fields — patch value when present, baseline value when absent —
with id and store-managed fields untouched by the merge; the spec's
worked example merges as stated. -/
theorem C3_update_merge :
    (∀ (b : Device) (p : DeviceUpdate),
      (applyUpdateFields b p).Name = p.Name.getD b.Name ∧
      (applyUpdateFields b p).Description = p.Description.getD b.Description ∧
      (applyUpdateFields b p).IsOnline = p.IsOnline.getD b.IsOnline ∧
      (applyUpdateFields b p).OwnedBy = p.OwnedBy.getD b.OwnedBy ∧
      (applyUpdateFields b p).DeviceType = p.DeviceType.getD b.DeviceType ∧
      (applyUpdateFields b p).LastAlarmReason = p.LastAlarmReason.getD b.LastAlarmReason ∧
      (applyUpdateFields b p).ID = b.ID ∧
      (applyUpdateFields b p).LastAlarmTime = b.LastAlarmTime ∧
      (applyUpdateFields b p).CreatedAt = b.CreatedAt ∧
      (applyUpdateFields b p).UpdatedAt = b.UpdatedAt) ∧
    applyUpdateFields
      { fixtureDevice with Name := gostr "A", OwnedBy := gostr "o1", IsOnline := false }
      { IsOnline := some true } =
      { fixtureDevice with Name := gostr "A", OwnedBy := gostr "o1", IsOnline := true } := by
  constructor
  · intro b p
    obtain ⟨n, de, o, ow, t, r⟩ := p
    cases n <;> cases de <;> cases o <;> cases ow <;> cases t <;> cases r <;>
      simp [applyUpdateFields]
  · rfl

set_option maxRecDepth 8000 in
/-- Claim C4: ValidateDeviceCreate accumulates every failing field into
one error map without short-circuiting — the key list is the
concatenation of the four independent per-field checks — its ok result
is true iff the map is empty, and the spec's four-failure example yields
exactly the keys name, device_type, owned_by, description. -/
theorem C4_create_accumulates :
    ((ValidateDeviceCreate {
        Name := gostr "Device@123",
        Description := List.replicate 501 'a',
        DeviceType := gostr "INVALID_TYPE", OwnedBy := gostr "" }).1 = false ∧
      errorKeys (ValidateDeviceCreate {
        Name := gostr "Device@123",
        Description := List.replicate 501 'a',
        DeviceType := gostr "INVALID_TYPE", OwnedBy := gostr "" }).2 =
        ["name", "device_type", "owned_by", "description"]) ∧
    (∀ d : DeviceCreate, errorKeys (ValidateDeviceCreate d).2 =
      (if IsValidDeviceName d.Name then [] else ["name"]) ++
      (if IsValidDeviceType d.DeviceType then [] else ["device_type"]) ++
      (if IsValidOwner d.OwnedBy then [] else ["owned_by"]) ++
      (if golen d.Description > MaxDescriptionLength then ["description"] else [])) ∧
    (∀ d : DeviceCreate, (ValidateDeviceCreate d).1 = true ↔
      (ValidateDeviceCreate d).2 = []) := by
  refine ⟨⟨by decide, by decide⟩, ?_, ?_⟩
  · intro d
    simp only [ValidateDeviceCreate, errorKeys]
    split_ifs <;> simp_all
  · intro d
    exact length_beq_zero_iff ((ValidateDeviceCreate d).2)

set_option maxHeartbeats 2000000 in
/-- Claim C5: ValidateDeviceUpdate applies to each present field the
same constraint as creation and never flags an absent field: the
name-only invalid patch yields exactly the key name; each possible key
is present iff its field is present and fails its creation-time
predicate; and every emitted key corresponds to a present field. -/
theorem C5_update_present_only :
    (errorKeys (ValidateDeviceUpdate { Name := some (gostr "Device@123") }).2 =
      ["name"]) ∧
    (∀ p : DeviceUpdate,
      ("name" ∈ errorKeys (ValidateDeviceUpdate p).2 ↔
        ∃ v, p.Name = some v ∧ IsValidDeviceName v = false) ∧
      ("owned_by" ∈ errorKeys (ValidateDeviceUpdate p).2 ↔
        ∃ v, p.OwnedBy = some v ∧ IsValidOwner v = false) ∧
      ("description" ∈ errorKeys (ValidateDeviceUpdate p).2 ↔
        ∃ v, p.Description = some v ∧ golen v > MaxDescriptionLength) ∧
      ("last_alarm_reason" ∈ errorKeys (ValidateDeviceUpdate p).2 ↔
        ∃ v, p.LastAlarmReason = some v ∧ golen v > MaxLastAlarmReasonLength) ∧
      ("device_type" ∈ errorKeys (ValidateDeviceUpdate p).2 ↔
        ∃ v, p.DeviceType = some v ∧ IsValidDeviceType v = false)) ∧
    (∀ (p : DeviceUpdate) (k : String), k ∈ errorKeys (ValidateDeviceUpdate p).2 →
      (k = "name" ∧ p.Name.isSome = true) ∨
      (k = "owned_by" ∧ p.OwnedBy.isSome = true) ∨
      (k = "description" ∧ p.Description.isSome = true) ∨
      (k = "last_alarm_reason" ∧ p.LastAlarmReason.isSome = true) ∨
      (k = "device_type" ∧ p.DeviceType.isSome = true)) := by
  refine ⟨by decide, ?_, ?_⟩
  · intro p
    obtain ⟨n, de, o, ow, t, r⟩ := p
    simp only [validateDeviceUpdate_keys]
    cases n <;> cases de <;> cases ow <;> cases t <;> cases r <;>
      (try split_ifs) <;> simp_all
  · intro p k hk
    rw [validateDeviceUpdate_keys] at hk
    obtain ⟨n, de, o, ow, t, r⟩ := p
    cases n <;> cases de <;> cases ow <;> cases t <;> cases r <;>
      (try split_ifs at hk) <;> simp_all <;> tauto

/-- Claim C5 witness: the key "name" emitted for the name-only invalid
patch corresponds to the present name field. -/
theorem C5_update_present_only_witness :
    ("name" = "name" ∧
      ({ Name := some (gostr "Device@123") } : DeviceUpdate).Name.isSome = true) ∨
    ("name" = "owned_by" ∧
      ({ Name := some (gostr "Device@123") } : DeviceUpdate).OwnedBy.isSome = true) ∨
    ("name" = "description" ∧
      ({ Name := some (gostr "Device@123") } : DeviceUpdate).Description.isSome = true) ∨
    ("name" = "last_alarm_reason" ∧
      ({ Name := some (gostr "Device@123") } : DeviceUpdate).LastAlarmReason.isSome = true) ∨
    ("name" = "device_type" ∧
      ({ Name := some (gostr "Device@123") } : DeviceUpdate).DeviceType.isSome = true) :=
  C5_update_present_only.2.2 { Name := some (gostr "Device@123") } "name" (by decide)

/-- Claim C6: ValidateAlarmRequest always runs both the reason check and
the level check, records at most one message per field with the first
failing rule winning, and on reason "" with level "INVALID_LEVEL"
returns ok=false with keys exactly reason, level. -/
theorem C6_alarm_validation :
    ((ValidateAlarmRequest { Reason := gostr "", Level := gostr "INVALID_LEVEL" }).1 =
        false ∧
      errorKeys (ValidateAlarmRequest {
        Reason := gostr "", Level := gostr "INVALID_LEVEL" }).2 =
        ["reason", "level"]) ∧
    (∀ a : AlarmRequest,
      ("level" ∈ errorKeys (ValidateAlarmRequest a).2 ↔
        ¬(a.Level = gostr "INFO" ∨ a.Level = gostr "WARNING" ∨
          a.Level = gostr "CRITICAL")) ∧
      ("reason" ∈ errorKeys (ValidateAlarmRequest a).2 ↔
        (golen a.Reason < MinAlarmReasonLength ∨
         golen a.Reason > MaxLastAlarmReasonLength)) ∧
      (errorKeys (ValidateAlarmRequest a).2).Nodup ∧
      ((ValidateAlarmRequest a).2.lookup "reason" =
        if golen a.Reason < MinAlarmReasonLength then
          some "reason cannot be empty"
        else if golen a.Reason > MaxLastAlarmReasonLength then
          some ("reason must not exceed " ++ toString MaxLastAlarmReasonLength ++
            " characters")
        else none)) := by
  refine ⟨⟨by decide, by decide⟩, ?_⟩
  intro a
  obtain ⟨re, lv⟩ := a
  simp only [ValidateAlarmRequest, errorKeys]
  split_ifs <;> simp_all [List.lookup] <;> tauto

/-- Claim C7: on a successful TriggerAlarm against the SQL-backed store
the persisted reason is exactly the request's reason prefixed with its
level as "[LEVEL] reason" — the bracket applied unconditionally with no
re-validation of the level — and the spec's worked example formats to
"[CRITICAL] Smoke detected". -/
theorem C7_alarm_format_persist :
    (formatReason fixtureAlarm = gostr "[CRITICAL] Smoke detected") ∧
    (∀ (s : Store) (id : Int) (alarm : AlarmRequest) (now : Nat) (d : Device),
      s.getByID id = some d →
      ∃ s' : Store,
        DeviceService.TriggerAlarm (sqliteRepo now) s id alarm =
          (.ok s', [(id, formatReason alarm)]) ∧
        s'.getByID id = some { d with
          LastAlarmReason := formatReason alarm,
          LastAlarmTime := now, UpdatedAt := now }) := by
  refine ⟨by decide, ?_⟩
  intro s id alarm now d h
  have hsvc : DeviceService.TriggerAlarm (sqliteRepo now) s id alarm =
      (DeviceRepositoryImpl.TriggerAlarm s id (formatReason alarm) now,
        [(id, formatReason alarm)]) := by
    simp only [DeviceService.TriggerAlarm, sqliteRepo, h]
  have key := find_map_update s.devices id
    (fun x => { x with
      LastAlarmReason := formatReason alarm,
      LastAlarmTime := now, UpdatedAt := now })
    (fun x => rfl)
  have h' : s.devices.find? (fun x => x.ID == id) = some d := h
  rw [h'] at key
  exact ⟨_, by rw [hsvc]; rfl, key⟩

/-- Claim C7 witness: the worked example on a one-device store. -/
theorem C7_alarm_format_persist_witness :
    formatReason fixtureAlarm = gostr "[CRITICAL] Smoke detected" ∧
    ∃ s' : Store,
      DeviceService.TriggerAlarm (sqliteRepo 7) { devices := [fixtureDevice] } 1 fixtureAlarm =
        (.ok s', [(1, formatReason fixtureAlarm)]) ∧
      s'.getByID 1 = some { fixtureDevice with
        LastAlarmReason := formatReason fixtureAlarm,
        LastAlarmTime := 7, UpdatedAt := 7 } :=
  ⟨C7_alarm_format_persist.1,
   C7_alarm_format_persist.2 { devices := [fixtureDevice] } 1 fixtureAlarm 7
     fixtureDevice (by decide)⟩

/-- Claim C8: whatever the repository behaviour, when the lookup yields
no device TriggerAlarm fails with the not-found error and the list of
alarm-mutation invocations is empty — no persistence write occurs. -/
theorem C8_trigger_absent_no_write :
    ∀ (σ : Type) (repo : RepoBehavior σ) (st : σ) (id : Int) (alarm : AlarmRequest),
      repo.GetByID st id = .ok none →
      DeviceService.TriggerAlarm repo st id alarm =
        (.error (deviceNotFoundError id), []) := by
  intro σ repo st id alarm h
  simp [DeviceService.TriggerAlarm, h]

/-- Claim C8 witness: an absent id on the empty SQL-backed store. -/
theorem C8_trigger_absent_no_write_witness :
    DeviceService.TriggerAlarm (sqliteRepo 0) { devices := [] } 42 fixtureAlarm =
      (.error (deviceNotFoundError 42), []) :=
  C8_trigger_absent_no_write Store (sqliteRepo 0) { devices := [] } 42 fixtureAlarm rfl

/-- A repository behaviour whose lookup reports a store error, as the
mock in the service tests does. -/
def failingRepo (e : GoError) : RepoBehavior Unit :=
  { GetByID := fun _ _ => .error e,
    TriggerAlarm := fun st _ _ => .ok st }

/-- Claim C10: when the lookup inside TriggerAlarm returns a store
error, that error is returned unchanged and the alarm mutation is never
invoked. -/
theorem C10_lookup_error_propagates :
    ∀ (σ : Type) (repo : RepoBehavior σ) (st : σ) (id : Int)
      (alarm : AlarmRequest) (e : GoError),
      repo.GetByID st id = .error e →
      DeviceService.TriggerAlarm repo st id alarm = (.error e, []) := by
  intro σ repo st id alarm e h
  simp [DeviceService.TriggerAlarm, h]

/-- Claim C10 witness: a failing lookup propagates its message. -/
theorem C10_lookup_error_propagates_witness :
    DeviceService.TriggerAlarm (failingRepo "database error") () 1 fixtureAlarm =
      (.error "database error", []) :=
  C10_lookup_error_propagates Unit (failingRepo "database error") () 1 fixtureAlarm
    "database error" rfl

end GoHome
